import Mathlib

/-
Shallow embedding of syzkaller's Fuchsia executor backend
(executor/executor_fuchsia.h): the coverage differ (cover_collect),
the pc-table snapshot reader (snapshot_sancov / snapshot_pctable),
the return-code normalizer (execute_syscall) and the result reporter
(write_call_output).

Machine integers are modelled as Nat (unsigned 64-bit / 32-bit values,
with explicit reduction modulo 2^32 where the code truncates) and Int
(the signed intptr_t results of syscalls).  File input is modelled as
an optional list of 64-bit words (none = fopen failed).  Writes to the
output pipe are modelled as the values written, in order.
-/

/- #define MAX_COVSZ (1ULL << 20) -/
def MAX_COVSZ : Nat := 2 ^ 20

/- static const uint64_t kPcFixup = 1;  (sancov stores return address - 1) -/
def kPcFixup : Nat := 1

/- static const char* kCovPcsFileName = ... -/
def kCovPcsFileName : String := "/boot/kernel/data/zircon.elf.1.sancov"

/- The cast static_cast<uint32_t>((pc + kPcFixup) & 0xFFFFFFFF) applied to
each included 64-bit location value. -/
def truncate_fixup (v : Nat) : Nat := (v + kPcFixup) % 2 ^ 32

/-
snapshot_sancov: fopen + fread of up to elems 64-bit words.
fread returns min (file size in words) elems; the code treats a null FILE*
or a read of exactly elems words as fatal (fail), otherwise returns n.
Fatal aborts are modelled as Except.error.
-/
def fread_count (data : List Nat) (elems : Nat) : Nat := min data.length elems

def snapshot_sancov (file : Option (List Nat)) (elems : Nat) : Except String Nat :=
  match file with
  | none => Except.error "could not open coverage file"
  | some data =>
    if fread_count data elems = elems then
      Except.error "pc table is too small. make it bigger."
    else
      Except.ok (fread_count data elems)

/- snapshot_pctable reads the fixed kernel pc-table file; the filesystem is
modelled as a map from path to optional contents. -/
def snapshot_pctable (fs : String → Option (List Nat)) (elems : Nat) : Except String Nat :=
  snapshot_sancov (fs kCovPcsFileName) elems

/-
The loop body of cover_collect: for i in [0, cov_size), skip slots with
pc_table[i] == 0 and slots with base_covcount[i] == curr_covcount[i];
otherwise write the fixed-up truncated pc at index num_pcs of
real_coverage_truncated and increment num_pcs.  The state after the first
n iterations is (num_pcs, list of (write index, written value) in order).
-/
def collect_writes (pc basec currc : Nat → Nat) : Nat → Nat × List (Nat × Nat)
  | 0 => (0, [])
  | n + 1 =>
    if pc n = 0 then collect_writes pc basec currc n
    else if basec n = currc n then collect_writes pc basec currc n
    else ((collect_writes pc basec currc n).1 + 1,
          (collect_writes pc basec currc n).2 ++
            [((collect_writes pc basec currc n).1, truncate_fixup (pc n))])

/- cover_collect's result: cov->size = num_pcs, cov->data = the values
written into real_coverage_truncated (in write order). -/
def cover_collect (pc basec currc : Nat → Nat) (cov_size : Nat) : Nat × List Nat :=
  ((collect_writes pc basec currc cov_size).1,
   (collect_writes pc basec currc cov_size).2.map Prod.snd)

/-
execute_syscall's result normalization.  The raw intptr_t result of the
call is the Int argument; the returned pair is (normalized result,
errno written on this path: none = errno untouched).
strncmp(name, "zx_", 3) == 0 compares the first three characters of the
name against z, x, _ (is_zx_call); the strcmp allow-list chain is
membership in zx_allowlist; ZX_OK = 0.
errno = (-res) & 0x7f on the kernel-native failure path: the low 7 bits
of the two's-complement representation, i.e. (-res) mod 128.
-/
def is_zx_call (name : String) : Bool := name.toList.take 3 == ['z', 'x', '_']

def zx_allowlist : List String :=
  ["zx_debuglog_read", "zx_clock_get", "zx_clock_get_monotonic",
   "zx_deadline_after", "zx_ticks_get"]

def execute_syscall (name : String) (res : Int) : Int × Option Nat :=
  if is_zx_call name = true then
    if res = 0 ∨ name ∈ zx_allowlist then
      (0, none)
    else
      (-1, some (((-res) % 128).toNat))
  else
    if res = (4294967295 : Int) then ((-1 : Int), none)
    else (res, none)

/-
write_call_output.  The call_flags bitset (call_flag_executed,
call_flag_blocked, call_flag_finished, call_flag_fault_injected) is
modelled as a record of four Bools, one per bit.
-/
structure CallFlags where
  executed : Bool
  blocked : Bool
  finished : Bool
  fault_injected : Bool
deriving DecidableEq

/- cover_t: size plus the data pointer, modelled as the full
real_coverage_truncated table; writes take the first size entries. -/
structure cover_t where
  size : Nat
  data : List Nat
deriving DecidableEq

/- The fields of thread_t consumed by write_call_output. -/
structure thread_t where
  call_index : Nat
  call_num : Nat
  res : Int
  reserrno : Nat
  fault_injected : Bool
  cov : cover_t
deriving DecidableEq

/- kOutMagic is defined outside this file; its value is irrelevant to the
claims, only that the field is populated with it. -/
def kOutMagic : Nat := 0xbadf00d

structure call_reply where
  magic : Nat
  done : Nat
  status : Nat
  call_index : Nat
  call_num : Nat
  reserrno : Nat
  flags : CallFlags
  signal_size : Nat
  cover_size : Nat
  comps_size : Nat
deriving DecidableEq

/-
write_call_output builds the reply header and then writes zero, one or two
payload tables of 32-bit values (th->cov.size entries starting at
th->cov.data) to the pipe.  blocked = (th != last_scheduled) is passed as
a Bool.  The result is (header, list of payload tables written after it).
-/
def write_call_output (flag_coverage flag_collect_cover : Bool)
    (th : thread_t) (finished blocked : Bool) : call_reply × List (List Nat) :=
  ({ magic := kOutMagic
     done := 0
     status := 0
     call_index := th.call_index
     call_num := th.call_num
     reserrno := if finished then (if th.res ≠ -1 then 0 else th.reserrno) else 999
     flags :=
       { executed := true
         blocked := blocked
         finished := finished
         fault_injected := finished && th.fault_injected }
     signal_size := if flag_coverage then th.cov.size else 0
     cover_size := if flag_coverage && flag_collect_cover then th.cov.size else 0
     comps_size := 0 },
   if flag_coverage then
     th.cov.data.take th.cov.size ::
       (if flag_collect_cover then [th.cov.data.take th.cov.size] else [])
   else [])

/- The inclusion condition of the collect loop, as a Bool-valued predicate
on slot indices. -/
def hit_cond (pc basec currc : Nat → Nat) (i : Nat) : Bool :=
  decide (pc i ≠ 0 ∧ basec i ≠ currc i)

/-- Structure lemma for the collect loop: after n iterations, num_pcs is the
number of slots passing the hit condition, the written values are the fixed-up
truncated pcs of those slots in index order, and the write indices are
exactly 0, 1, ..., num_pcs - 1 in order. -/
theorem collect_writes_spec (pc basec currc : Nat → Nat) (n : Nat) :
    (collect_writes pc basec currc n).1 =
      ((List.range n).filter (hit_cond pc basec currc)).length
    ∧ (collect_writes pc basec currc n).2.map Prod.snd =
      ((List.range n).filter (hit_cond pc basec currc)).map
        (fun i => truncate_fixup (pc i))
    ∧ (collect_writes pc basec currc n).2.map Prod.fst =
      List.range (collect_writes pc basec currc n).1 := by
  induction n with
  | zero => simp [collect_writes]
  | succ n ih =>
    obtain ⟨h1, h2, h3⟩ := ih
    by_cases hpc : pc n = 0
    · have hc : hit_cond pc basec currc n = false := by
        simp [hit_cond, hpc]
      simpa [collect_writes, hpc, List.range_succ, List.filter_append, hc]
        using ⟨h1, h2, h3⟩
    · by_cases hbc : basec n = currc n
      · have hc : hit_cond pc basec currc n = false := by
          simp [hit_cond, hbc]
        simpa [collect_writes, hpc, hbc, List.range_succ, List.filter_append, hc]
          using ⟨h1, h2, h3⟩
      · have hc : hit_cond pc basec currc n = true := by
          simp [hit_cond, hpc, hbc]
        refine ⟨?_, ?_, ?_⟩
        · simp [collect_writes, hpc, hbc, List.range_succ, List.filter_append,
            hc, h1]
        · simp [collect_writes, hpc, hbc, List.range_succ, List.filter_append,
            hc, h2]
        · simp [collect_writes, hpc, hbc, h3, List.range_succ]

/-- Claim C1: for every location table, baseline and current snapshot,
cover_collect produces exactly the slots i in [0, cov_size) with a nonzero
location-table entry and a changed counter, in increasing index order with no
reordering, and its reported size is the number of such slots (so a counter
that changed and changed back between two collects is excluded, since its
baseline and current values are equal). -/
theorem claim_C1_collect_diff (pc basec currc : Nat → Nat) (cov_size : Nat) :
    (cover_collect pc basec currc cov_size).2 =
      ((List.range cov_size).filter (hit_cond pc basec currc)).map
        (fun i => truncate_fixup (pc i))
    ∧ (cover_collect pc basec currc cov_size).1 =
      ((List.range cov_size).filter (hit_cond pc basec currc)).length := by
  obtain ⟨h1, h2, _⟩ := collect_writes_spec pc basec currc cov_size
  exact ⟨h2, h1⟩

/-- Claim C2: every 64-bit location value v included by cover_collect is
reported as (v + 1) mod 2^32; at the boundaries, v = 0xFFFFFFFF is reported
as 0 and v = 0x100000000 is reported as 1. -/
theorem claim_C2_fixup_truncation :
    (∀ (pc basec currc : Nat → Nat) (cov_size : Nat),
      (cover_collect pc basec currc cov_size).2 =
        ((List.range cov_size).filter (hit_cond pc basec currc)).map
          (fun i => truncate_fixup (pc i)))
    ∧ (∀ v : Nat, truncate_fixup v = (v + 1) % 2 ^ 32)
    ∧ truncate_fixup 0xFFFFFFFF = 0
    ∧ truncate_fixup 0x100000000 = 1 := by
  refine ⟨fun pc basec currc cov_size => ?_, fun v => rfl, by decide, by decide⟩
  exact (collect_writes_spec pc basec currc cov_size).2.1

/-- Claim C10: the collect loop writes each included hit at a distinct,
strictly increasing index (0, 1, 2, ...), its hit count is at most cov_size,
and when cov_size comes from a successful snapshot_pctable read with capacity
MAX_COVSZ it is at most MAX_COVSZ, so every write index into the
MAX_COVSZ-sized truncated-hits table is in bounds. -/
theorem claim_C10_collect_safety (file : List Nat) (pc basec currc : Nat → Nat)
    (n : Nat) (h : snapshot_sancov (some file) MAX_COVSZ = Except.ok n) :
    (collect_writes pc basec currc n).2.map Prod.fst =
      List.range (collect_writes pc basec currc n).1
    ∧ (collect_writes pc basec currc n).1 ≤ n
    ∧ n ≤ MAX_COVSZ
    ∧ ∀ w ∈ (collect_writes pc basec currc n).2, w.1 < MAX_COVSZ := by
  have hn : n < MAX_COVSZ := by
    by_cases hf : fread_count file MAX_COVSZ = MAX_COVSZ
    · simp [snapshot_sancov, hf] at h
    · simp [snapshot_sancov, hf] at h
      exact h ▸ lt_of_le_of_ne (min_le_right _ _) hf
  obtain ⟨h1, _, h3⟩ := collect_writes_spec pc basec currc n
  have hsize : (collect_writes pc basec currc n).1 ≤ n := by
    rw [h1]
    exact le_trans (List.length_filter_le _ _) (by simp)
  refine ⟨h3, hsize, le_of_lt hn, fun w hw => ?_⟩
  have hmem : w.1 ∈ List.range (collect_writes pc basec currc n).1 := by
    rw [← h3]
    exact List.mem_map_of_mem Prod.fst hw
  exact lt_of_lt_of_le (List.mem_range.mp hmem) (le_trans hsize (le_of_lt hn))

/-- Witness for claim C10 at a one-entry pc file and a single changed slot. -/
theorem claim_C10_collect_safety_witness :
    snapshot_sancov (some [5]) MAX_COVSZ = Except.ok 1
    ∧ ((collect_writes (fun _ => 5) (fun _ => 0) (fun _ => 1) 1).2.map Prod.fst =
        List.range (collect_writes (fun _ => 5) (fun _ => 0) (fun _ => 1) 1).1
      ∧ (collect_writes (fun _ => 5) (fun _ => 0) (fun _ => 1) 1).1 ≤ 1
      ∧ 1 ≤ MAX_COVSZ
      ∧ ∀ w ∈ (collect_writes (fun _ => 5) (fun _ => 0) (fun _ => 1) 1).2,
          w.1 < MAX_COVSZ) :=
  ⟨rfl, claim_C10_collect_safety [5] (fun _ => 5) (fun _ => 0) (fun _ => 1) 1 rfl⟩

/-- Claim C3: a kernel-native (zx_-prefixed) call whose raw result is ZX_OK
(= 0) normalizes to 0, and each allow-listed call normalizes to 0 for every
raw result. -/
theorem claim_C3_zx_success (name : String) (res : Int) :
    (is_zx_call name = true → res = 0 → (execute_syscall name res).1 = 0)
    ∧ (name ∈ zx_allowlist → (execute_syscall name res).1 = 0) := by
  constructor
  · intro hpre hres
    simp [execute_syscall, hpre, hres]
  · intro hmem
    have hpre : is_zx_call name = true := by
      fin_cases hmem <;> decide
    simp [execute_syscall, hpre, hmem]

/-- Witness for claim C3: a zx_ call with raw result 0, and an allow-listed
call with a nonzero raw result, both normalize to 0. -/
theorem claim_C3_zx_success_witness :
    (execute_syscall "zx_channel_write" 0).1 = 0
    ∧ (execute_syscall "zx_ticks_get" 7).1 = 0 :=
  ⟨(claim_C3_zx_success "zx_channel_write" 0).1 (by decide) rfl,
   (claim_C3_zx_success "zx_ticks_get" 7).2 (by decide)⟩

/-- Claim C4: a kernel-native call not on the allow-list with a nonzero raw
result returns the failure sentinel -1 and stores (-raw) mod 128 (the low 7
bits of -raw) as the thread-local errno; raw -5 stores 5; errno is written on
no other path. -/
theorem claim_C4_zx_error :
    (∀ (name : String) (res : Int),
      is_zx_call name = true → name ∉ zx_allowlist → res ≠ 0 →
        execute_syscall name res = (-1, some (((-res) % 128).toNat)))
    ∧ execute_syscall "zx_channel_write" (-5) = (-1, some (5 % 128))
    ∧ (∀ (name : String) (res : Int),
        (execute_syscall name res).2 ≠ none →
          is_zx_call name = true ∧ name ∉ zx_allowlist ∧ res ≠ 0) := by
  refine ⟨?_, by decide, ?_⟩
  · intro name res hpre hmem hres
    have hcond : ¬(res = 0 ∨ name ∈ zx_allowlist) := by
      rintro (h | h)
      · exact hres h
      · exact hmem h
    unfold execute_syscall
    rw [if_pos hpre, if_neg hcond]
  · intro name res h
    by_cases hpre : is_zx_call name = true
    · by_cases hcond : res = 0 ∨ name ∈ zx_allowlist
      · simp [execute_syscall, hpre, hcond] at h
      · push_neg at hcond
        exact ⟨hpre, hcond.2, hcond.1⟩
    · by_cases hres : res = 4294967295
      · simp [execute_syscall, hpre, hres] at h
      · simp [execute_syscall, hpre, hres] at h

/-- Witness for claim C4: zx_handle_close with raw result -3 yields -1 and
stored errno 3. -/
theorem claim_C4_zx_error_witness :
    execute_syscall "zx_handle_close" (-3) =
      (-1, some (((-(-3 : Int)) % 128).toNat)) :=
  claim_C4_zx_error.1 "zx_handle_close" (-3) (by decide) (by decide) (by decide)

/-- Claim C5: a call without the zx_ prefix normalizes a raw result equal to
the 32-bit all-ones pattern 0xFFFFFFFF to the full-width -1, and passes every
other raw result through unchanged. -/
theorem claim_C5_nonzx :
    (∀ (name : String) (res : Int), is_zx_call name = false →
      res = 4294967295 → execute_syscall name res = (-1, none))
    ∧ (∀ (name : String) (res : Int), is_zx_call name = false →
      res ≠ 4294967295 → execute_syscall name res = (res, none))
    ∧ execute_syscall "open" 4294967295 = (-1, none)
    ∧ execute_syscall "open" 1 = (1, none) := by
  refine ⟨?_, ?_, by decide, by decide⟩
  · intro name res hpre hres
    unfold execute_syscall
    rw [if_neg (by simp [hpre]), if_pos hres]
  · intro name res hpre hres
    unfold execute_syscall
    rw [if_neg (by simp [hpre]), if_neg hres]

/-- Witness for claim C5: a conventional call with raw 0xFFFFFFFF corrected
to -1, and with raw 7 passed through. -/
theorem claim_C5_nonzx_witness :
    execute_syscall "read" 4294967295 = (-1, none)
    ∧ execute_syscall "read" 7 = (7, none) :=
  ⟨claim_C5_nonzx.1 "read" 4294967295 (by decide) rfl,
   claim_C5_nonzx.2.1 "read" 7 (by decide) (by decide)⟩

/-- Claim C6: write_call_output with finished = false emits error code 999
with the finished flag clear; with finished = true and a successful result
(res not equal to -1) it emits error code 0 with the finished flag set; and
the fault-injected flag is only ever set when finished is true. -/
theorem claim_C6_framing :
    (∀ (fc fcc : Bool) (th : thread_t) (blocked : Bool),
      (write_call_output fc fcc th false blocked).1.reserrno = 999
      ∧ (write_call_output fc fcc th false blocked).1.flags.finished = false)
    ∧ (∀ (fc fcc : Bool) (th : thread_t) (blocked : Bool), th.res ≠ -1 →
      (write_call_output fc fcc th true blocked).1.reserrno = 0
      ∧ (write_call_output fc fcc th true blocked).1.flags.finished = true)
    ∧ (∀ (fc fcc : Bool) (th : thread_t) (finished blocked : Bool),
      (write_call_output fc fcc th finished blocked).1.flags.fault_injected = true →
        finished = true) := by
  refine ⟨fun fc fcc th blocked => ⟨rfl, rfl⟩,
    fun fc fcc th blocked h => ⟨?_, rfl⟩, ?_⟩
  · simp [write_call_output, h]
  · intro fc fcc th finished blocked h
    simp only [write_call_output, Bool.and_eq_true] at h
    exact h.1

/-- Witness for claim C6: a finished call with result 0 reports error code 0
and the finished flag set. -/
theorem claim_C6_framing_witness :
    (write_call_output true true
        { call_index := 0, call_num := 1, res := 0, reserrno := 3,
          fault_injected := false, cov := { size := 0, data := [] } }
        true false).1.reserrno = 0
    ∧ (write_call_output true true
        { call_index := 0, call_num := 1, res := 0, reserrno := 3,
          fault_injected := false, cov := { size := 0, data := [] } }
        true false).1.flags.finished = true :=
  claim_C6_framing.2.1 true true
    { call_index := 0, call_num := 1, res := 0, reserrno := 3,
      fault_injected := false, cov := { size := 0, data := [] } }
    false (by decide)

/-- Claim C7: the pc-table snapshot reader fails fatally iff the coverage
file cannot be opened or the number of 64-bit values read equals the given
capacity, and otherwise returns the number of entries actually read; in
particular a file whose true size exactly equals the capacity is fatal. -/
theorem claim_C7_snapshot_capacity (fs : String → Option (List Nat))
    (data : List Nat) (elems : Nat) :
    snapshot_pctable fs elems = snapshot_sancov (fs kCovPcsFileName) elems
    ∧ snapshot_sancov none elems = Except.error "could not open coverage file"
    ∧ snapshot_sancov (some data) elems =
        (if fread_count data elems = elems then
          Except.error "pc table is too small. make it bigger."
        else Except.ok (fread_count data elems))
    ∧ snapshot_sancov (some data) data.length =
        Except.error "pc table is too small. make it bigger." := by
  refine ⟨rfl, rfl, rfl, ?_⟩
  simp [snapshot_sancov, fread_count]

/-- Claim C8: with coverage reporting on, the signal-size field equals the
hit count and the hit table is written once as the signal payload; with
full-coverage collection also on, the cover-size field equals the same count
and the identical hit table is written a second time; with coverage off both
size fields are 0 and no payload is written. -/
theorem claim_C8_coverage_payload (th : thread_t) (fin blocked : Bool) :
    ((write_call_output true false th fin blocked).1.signal_size = th.cov.size
      ∧ (write_call_output true false th fin blocked).1.cover_size = 0
      ∧ (write_call_output true false th fin blocked).2 =
          [th.cov.data.take th.cov.size])
    ∧ ((write_call_output true true th fin blocked).1.signal_size = th.cov.size
      ∧ (write_call_output true true th fin blocked).1.cover_size = th.cov.size
      ∧ (write_call_output true true th fin blocked).2 =
          [th.cov.data.take th.cov.size, th.cov.data.take th.cov.size])
    ∧ ∀ fcc : Bool,
        (write_call_output false fcc th fin blocked).1.signal_size = 0
        ∧ (write_call_output false fcc th fin blocked).1.cover_size = 0
        ∧ (write_call_output false fcc th fin blocked).2 = [] :=
  ⟨⟨rfl, rfl, rfl⟩, ⟨rfl, rfl, rfl⟩, fun _ => ⟨rfl, rfl, rfl⟩⟩

/-- Claim C9: every reply header has comparison-table size 0, protocol done
flag 0, protocol status 0 and the executed flag set, for all inputs. -/
theorem claim_C9_header_invariants (fc fcc : Bool) (th : thread_t)
    (fin blocked : Bool) :
    (write_call_output fc fcc th fin blocked).1.comps_size = 0
    ∧ (write_call_output fc fcc th fin blocked).1.done = 0
    ∧ (write_call_output fc fcc th fin blocked).1.status = 0
    ∧ (write_call_output fc fcc th fin blocked).1.flags.executed = true :=
  ⟨rfl, rfl, rfl, rfl⟩
